import Mathlib

/-!
# HelloWorld.node.js

A shallow embedding of `src/HelloWorld.node.js`.

The script has two module-level variables (`hostname`, `port`), one request
listener handed to `http.createServer`, and one call of `server.listen` with a
callback.  The script's own statements are embedded one for one.  The calls it
makes into the Node.js runtime (`console.log`, `res.writeHead`, `res.end`,
`server.listen`) are embedded as operations on an explicit process state, after
the documented contract of each call; what the operating system decides (whether
the bind succeeds, which requests arrive) is an input of the run.
-/

namespace HelloWorld

/-! ## Data model -/

/-- A header mapping: the key/value pairs of an object, in insertion order. -/
abbrev Headers := List (String × String)

/-- The request object `req` that the runtime hands to the request listener.
`method` is the method as sent, in upper case; `headers` is the mapping the
runtime built from the header lines, its keys in lower case. -/
structure IncomingMessage where
  method : String
  url : String
  headers : Headers
deriving DecidableEq, Repr

/-- A value handed to `console.log`: an object (logged as its key/value pairs, in
whatever textual form the console gives them) or a string (logged as one line). -/
inductive LogEntry where
  | object (fields : Headers)
  | text (line : String)
deriving DecidableEq, Repr

/-- The errors the runtime calls used by the script can raise. -/
inductive JsError where
  | ERR_HTTP_HEADERS_SENT
  | ERR_HTTP_INVALID_STATUS_CODE (statusCode : Nat)
  | ERR_INVALID_HTTP_TOKEN (name : String)
  | ERR_INVALID_CHAR (name : String)
  | listenError (cause : String)
deriving DecidableEq, Repr

/-- The response object `res` that the runtime hands to the request listener.
`headers` holds the headers the program set explicitly; `hasBody` tells whether
the response may carry a body (it may not when it answers a `HEAD` request, nor
with status 204, 304 or 1xx). -/
structure ServerResponse where
  statusCode : Nat
  headers : Headers
  headersSent : Bool
  body : String
  finished : Bool
  hasBody : Bool
deriving DecidableEq, Repr

/-- A response object as constructed: nothing set, nothing sent, a body allowed. -/
def ServerResponse.fresh : ServerResponse :=
  { statusCode := 200, headers := [], headersSent := false, body := "", finished := false,
    hasBody := true }

/-- The response object the runtime creates for an incoming request: a new
object, which may carry a body unless the request's method is `HEAD`. -/
def ServerResponse.forRequest (req : IncomingMessage) : ServerResponse :=
  { ServerResponse.fresh with hasBody := !(req.method == "HEAD") }

/-- What a client receives from a completed response: status, explicitly set
headers, body. -/
structure Response where
  status : Nat
  headers : Headers
  body : String
deriving DecidableEq, Repr

/-- The response sent through `res`, once `res` has been ended. -/
def ServerResponse.sent (res : ServerResponse) : Option Response :=
  if res.finished then some { status := res.statusCode, headers := res.headers, body := res.body }
  else none

/-- One call into the runtime, as recorded in the order the program makes it. -/
inductive Effect where
  | consoleLog (entry : LogEntry)
  | writeHead (statusCode : Nat) (headers : Headers)
  | end_ (chunk : String)
deriving DecidableEq, Repr

/-- The life cycle of the server. -/
inductive ServerState where
  | Unstarted
  | Listening
  | Terminated
deriving DecidableEq, Repr

/-- The state of the running script: its two module-level variables, the server,
the log sink (standard output), the binds attempted, the response object of the
request being handled, the responses sent, the runtime calls made, and the
uncaught error that ended the process, if any. -/
structure Process where
  hostname : String
  port : Nat
  state : ServerState
  stdout : List LogEntry
  binds : List (Nat × String)
  res : ServerResponse
  responses : List Response
  trace : List Effect
  uncaught : Option JsError
deriving DecidableEq, Repr

/-- Computations of the script: they may throw, and they act on the process. -/
abbrev Js := ExceptT JsError (StateM Process)

/-- Run a computation from a process state. -/
def Js.exec {α : Type} (m : Js α) (p : Process) : Except JsError α × Process :=
  (m.run).run p

/-! ## Runtime calls used by the script -/

/-- The call `console.log(v)`: one entry is appended to the log sink. -/
def console_log (entry : LogEntry) : Js Unit :=
  modify fun p =>
    { p with stdout := p.stdout ++ [entry], trace := p.trace ++ [Effect.consoleLog entry] }

/-- Header names are HTTP tokens: `^[\^_\x60a-zA-Z\-0-9!#$%&'*+.|~]+$`. -/
def checkIsHttpToken (name : String) : Bool :=
  !name.toList.isEmpty &&
    name.toList.all fun c =>
      c.isAlphanum || [94, 95, 96, 45, 33, 35, 36, 37, 38, 39, 42, 43, 46, 124, 126].contains c.toNat

/-- A header value holds an invalid character when one is outside
`\t`, `\x20-\x7e`, `\x80-\xff`. -/
def checkInvalidHeaderChar (value : String) : Bool :=
  value.toList.any fun c =>
    !(c.toNat == 9 || (32 ≤ c.toNat && c.toNat ≤ 126) || (128 ≤ c.toNat && c.toNat ≤ 255))

/-- Each header is validated in turn, its name first, then its value. -/
def validateHeaders : Headers → Except JsError Unit
  | [] => .ok ()
  | (name, value) :: rest =>
    if !checkIsHttpToken name then .error (.ERR_INVALID_HTTP_TOKEN name)
    else if checkInvalidHeaderChar value then .error (.ERR_INVALID_CHAR name)
    else validateHeaders rest

/-- The call `res.writeHead(statusCode, headers)`: throws when the head was
already sent, when the status code is outside 100..999, or when a header is
invalid; otherwise sets the status code and the headers and sends the head. A
response with status 204, 304 or 1xx carries no body. -/
def writeHead (statusCode : Nat) (headers : Headers) : Js Unit := do
  let p ← get
  if p.res.headersSent then throw JsError.ERR_HTTP_HEADERS_SENT
  if statusCode < 100 ∨ 999 < statusCode then
    throw (JsError.ERR_HTTP_INVALID_STATUS_CODE statusCode)
  match validateHeaders headers with
  | .error e => throw e
  | .ok _ =>
    set { p with
      res := { p.res with
        statusCode := statusCode, headers := p.res.headers ++ headers, headersSent := true,
        hasBody :=
          if statusCode = 204 ∨ statusCode = 304 ∨ (100 ≤ statusCode ∧ statusCode ≤ 199) then false
          else p.res.hasBody },
      trace := p.trace ++ [Effect.writeHead statusCode headers] }

/-- The call `res.end(chunk)` with a string: on a response not yet ended, the
head is sent if it was not, the chunk is written when the response may carry a
body and discarded when it may not, and the response is completed; on an ended
response nothing is written. -/
def end_ (chunk : String) : Js Unit :=
  modify fun p =>
    if p.res.finished then { p with trace := p.trace ++ [Effect.end_ chunk] }
    else
      { p with
        res := { p.res with
          headersSent := true,
          body := if p.res.hasBody then p.res.body ++ chunk else p.res.body,
          finished := true },
        trace := p.trace ++ [Effect.end_ chunk] }

/-! ## The script -/

/-- Line 3: `var hostname = 'localhost';` -/
def hostname : String := "localhost"

/-- Line 4: `var port = 3000;` -/
def port : Nat := 3000

/-- The template literal of line 9, which has no placeholder. -/
def body : String :=
  "<!doctype html><html><head><meta charset=\"utf-8\" /><meta name=\"viewport\" content=\"width=device-width, initial-scale=1.0\" /><title>Hello World</title></head><body><h1>Hello, world!</h1></body></html>"

/-- Lines 6-10: the request listener handed to `http.createServer`. -/
def handler (req : IncomingMessage) : Js Unit := do
  console_log (LogEntry.object req.headers)
  writeHead 200 [("Content-Type", "text/html")]
  end_ body

/-- Lines 12-14: the callback handed to `server.listen`; the template literal
reads the two module-level variables. -/
def listenCallback : Js Unit := do
  let p ← get
  console_log (LogEntry.text ("Server running at http://" ++ p.hostname ++ ":" ++ toString p.port))

/-- The call `server.listen(port, hostname, callback)`: one bind is attempted.
When it succeeds the server is listening and the callback, registered for the
`listening` event, runs.  When it fails the server emits `error`; the script
registers no listener for it, so the error is thrown. -/
def listen (port : Nat) (hostname : String) (callback : Js Unit)
    (outcome : Except String Unit) : Js Unit := do
  modify fun p => { p with binds := p.binds ++ [(port, hostname)] }
  match outcome with
  | .ok _ =>
    modify fun p => { p with state := ServerState.Listening }
    callback
  | .error cause => throw (JsError.listenError cause)

/-- The process once lines 1-10 have run: the two variables are assigned and the
server is created, not yet started. -/
def Process.init : Process :=
  { hostname := HelloWorld.hostname, port := HelloWorld.port, state := ServerState.Unstarted, stdout := [],
    binds := [], res := ServerResponse.fresh, responses := [], trace := [], uncaught := none }

/-- An error nobody catches ends the process. -/
def settle (r : Except JsError Unit × Process) : Process :=
  match r.1 with
  | .ok _ => r.2
  | .error e => { r.2 with state := ServerState.Terminated, uncaught := some e }

/-- Line 12 executed from a process state: `server.listen(port, hostname, ...)`
with the current values of the two variables. -/
def start (outcome : Except String Unit) (p : Process) : Process :=
  settle ((listen p.port p.hostname listenCallback outcome).exec p)

/-- A `request` event: a listening server runs the listener on the request and
the response object created for it, and what the listener completed is sent; a
server that is not listening accepts nothing. Requests for which the runtime
raises another event (`CONNECT`, an upgrade, an unknown `Expect`) are not
`request` events. -/
def request (p : Process) (req : IncomingMessage) : Process :=
  match p.state with
  | ServerState.Listening =>
    let q := settle ((handler req).exec { p with res := ServerResponse.forRequest req })
    { q with responses := q.responses ++ q.res.sent.toList }
  | _ => p

/-- The requests of a list, handled one after the other. -/
def serve (p : Process) (reqs : List IncomingMessage) : Process :=
  reqs.foldl request p

/-- The whole run of the script: start, then the requests that arrive. -/
def run (outcome : Except String Unit) (reqs : List IncomingMessage) : Process :=
  serve (start outcome Process.init) reqs

/-- The response the listener produces for a request, handled in process state `p`. -/
def respond (req : IncomingMessage) (p : Process) : Option Response :=
  ((handler req).exec { p with res := ServerResponse.forRequest req }).2.res.sent

/-! ## The listener on a new response object -/

/-- The response object after the listener ran on a new one: the page is its
body when a body is allowed, and it has no body otherwise. -/
def endedRes (hasBody : Bool) : ServerResponse :=
  { statusCode := 200, headers := [("Content-Type", "text/html")], headersSent := true,
    body := if hasBody then body else "", finished := true, hasBody := hasBody }

/-- The response the listener sends for a request: status 200,
`Content-Type: text/html`, and the page, which a `HEAD` request does not get. -/
def responseFor (req : IncomingMessage) : Response :=
  { status := 200, headers := [("Content-Type", "text/html")],
    body := if req.method = "HEAD" then "" else body }

/-- The three runtime calls of the listener, for a request. -/
def handlerCalls (req : IncomingMessage) : List Effect :=
  [Effect.consoleLog (LogEntry.object req.headers),
   Effect.writeHead 200 [("Content-Type", "text/html")],
   Effect.end_ body]

/-- The line of the listen callback for given values of the two variables. -/
def startupLine (h : String) (n : Nat) : String :=
  "Server running at http://" ++ h ++ ":" ++ toString n

/-- Handling a request on a new response object, with or without a body
allowed: no error, one log entry, three runtime calls, the response ended. -/
theorem handler_exec (req : IncomingMessage) (p : Process) (hb : Bool) :
    (handler req).exec { p with res := { ServerResponse.fresh with hasBody := hb } } =
      (.ok (),
        { p with
          stdout := p.stdout ++ [LogEntry.object req.headers],
          res := endedRes hb,
          trace := p.trace ++ handlerCalls req }) := by
  cases hb <;>
  simp [handler, Js.exec, console_log, writeHead, end_, ServerResponse.fresh, validateHeaders,
    checkIsHttpToken, checkInvalidHeaderChar, bind, ExceptT.bind, ExceptT.mk, ExceptT.run,
    ExceptT.bindCont, StateT.bind, StateT.run, modify, modifyGet, MonadStateOf.modifyGet,
    StateT.modifyGet, get, getThe, MonadStateOf.get, StateT.get, set, StateT.set, pure,
    ExceptT.pure, StateT.pure, liftM, monadLift, MonadLift.monadLift, ExceptT.lift, StateT.map,
    Functor.map, throw, throwThe, MonadExceptOf.throw, endedRes, handlerCalls]

theorem handler_exec_fresh (req : IncomingMessage) (p : Process) :
    (handler req).exec { p with res := ServerResponse.fresh } =
      (.ok (),
        { p with
          stdout := p.stdout ++ [LogEntry.object req.headers],
          res := endedRes true,
          trace := p.trace ++ handlerCalls req }) :=
  handler_exec req p true

theorem handler_exec_req (req : IncomingMessage) (p : Process) :
    (handler req).exec { p with res := ServerResponse.forRequest req } =
      (.ok (),
        { p with
          stdout := p.stdout ++ [LogEntry.object req.headers],
          res := endedRes (!(req.method == "HEAD")),
          trace := p.trace ++ handlerCalls req }) :=
  handler_exec req p (!(req.method == "HEAD"))

theorem endedRes_sent (req : IncomingMessage) :
    (endedRes (!(req.method == "HEAD"))).sent = some (responseFor req) := by
  by_cases h : req.method = "HEAD" <;> simp [endedRes, ServerResponse.sent, responseFor, h]

theorem respond_eq (req : IncomingMessage) (p : Process) :
    respond req p = some (responseFor req) := by
  unfold respond
  rw [handler_exec_req]
  exact endedRes_sent req

theorem responseFor_not_head (req : IncomingMessage) (h : req.method ≠ "HEAD") :
    responseFor req =
      { status := 200, headers := [("Content-Type", "text/html")], body := body } := by
  simp [responseFor, h]

theorem responseFor_head (req : IncomingMessage) (h : req.method = "HEAD") :
    responseFor req =
      { status := 200, headers := [("Content-Type", "text/html")], body := "" } := by
  simp [responseFor, h]

/-- Two requests that are both `HEAD` or both not `HEAD` get the same response. -/
theorem responseFor_congr (r1 r2 : IncomingMessage)
    (h : r1.method = "HEAD" ↔ r2.method = "HEAD") : responseFor r1 = responseFor r2 := by
  by_cases h1 : r1.method = "HEAD"
  · rw [responseFor_head r1 h1, responseFor_head r2 (h.mp h1)]
  · rw [responseFor_not_head r1 h1, responseFor_not_head r2 (fun h2 => h1 (h.mpr h2))]

/-! ## Starting -/

theorem start_ok (u : Unit) (p : Process) :
    start (.ok u) p =
      { p with
        state := ServerState.Listening,
        binds := p.binds ++ [(p.port, p.hostname)],
        stdout := p.stdout ++ [LogEntry.text (startupLine p.hostname p.port)],
        trace := p.trace ++ [Effect.consoleLog (LogEntry.text (startupLine p.hostname p.port))] } := by
  simp [start, settle, listen, listenCallback, startupLine, Js.exec, console_log, bind,
    ExceptT.bind, ExceptT.mk, ExceptT.run, ExceptT.bindCont, StateT.bind, StateT.run, modify,
    modifyGet, MonadStateOf.modifyGet, StateT.modifyGet, get, getThe, MonadStateOf.get,
    StateT.get, pure, ExceptT.pure, StateT.pure, liftM, monadLift, MonadLift.monadLift,
    ExceptT.lift, StateT.map, Functor.map]

theorem start_error (cause : String) (p : Process) :
    start (.error cause) p =
      { p with
        state := ServerState.Terminated,
        binds := p.binds ++ [(p.port, p.hostname)],
        uncaught := some (JsError.listenError cause) } := by
  simp [start, settle, listen, Js.exec, bind, ExceptT.bind, ExceptT.mk, ExceptT.run,
    ExceptT.bindCont, StateT.bind, StateT.run, modify, modifyGet, MonadStateOf.modifyGet,
    StateT.modifyGet, pure, ExceptT.pure, StateT.pure, liftM, monadLift,
    MonadLift.monadLift, ExceptT.lift, StateT.map, Functor.map, throw, throwThe,
    MonadExceptOf.throw]

/-! ## Requests -/

theorem request_listening (p : Process) (req : IncomingMessage)
    (h : p.state = ServerState.Listening) :
    request p req =
      { p with
        stdout := p.stdout ++ [LogEntry.object req.headers],
        res := endedRes (!(req.method == "HEAD")),
        responses := p.responses ++ [responseFor req],
        trace := p.trace ++ handlerCalls req } := by
  unfold request
  split
  · simp only [handler_exec_req, settle, endedRes_sent]
    rfl
  · next hne => exact absurd h (hne ·)

theorem request_not_listening (p : Process) (req : IncomingMessage)
    (h : p.state ≠ ServerState.Listening) : request p req = p := by
  unfold request
  split
  · next h' => exact absurd h' h
  · rfl

theorem serve_nil (p : Process) : serve p [] = p := rfl

theorem serve_cons (p : Process) (r : IncomingMessage) (rs : List IncomingMessage) :
    serve p (r :: rs) = serve (request p r) rs := rfl

theorem serve_not_listening (reqs : List IncomingMessage) (p : Process)
    (h : p.state ≠ ServerState.Listening) : serve p reqs = p := by
  induction reqs with
  | nil => rfl
  | cons r rs ih =>
    rw [serve_cons, request_not_listening p r h]
    exact ih

/-- Serving a list of requests from a listening process: the variables, the
server state, the binds and the uncaught error are untouched; one log entry, one
response and three runtime calls are appended per request, in order. -/
theorem serve_listening (reqs : List IncomingMessage) (p : Process)
    (h : p.state = ServerState.Listening) :
    (serve p reqs).hostname = p.hostname ∧
    (serve p reqs).port = p.port ∧
    (serve p reqs).state = ServerState.Listening ∧
    (serve p reqs).binds = p.binds ∧
    (serve p reqs).uncaught = p.uncaught ∧
    (serve p reqs).stdout = p.stdout ++ reqs.map (fun r => LogEntry.object r.headers) ∧
    (serve p reqs).responses = p.responses ++ reqs.map responseFor ∧
    (serve p reqs).trace = p.trace ++ (reqs.map handlerCalls).flatten := by
  induction reqs generalizing p with
  | nil => simp [serve_nil, h]
  | cons r rs ih =>
    have hq : (request p r).state = ServerState.Listening := by
      rw [request_listening p r h]; exact h
    obtain ⟨h1, h2, h3, h4, h5, h6, h7, h8⟩ := ih (request p r) hq
    rw [serve_cons]
    refine ⟨?_, ?_, h3, ?_, ?_, ?_, ?_, ?_⟩
    · rw [h1, request_listening p r h]
    · rw [h2, request_listening p r h]
    · rw [h4, request_listening p r h]
    · rw [h5, request_listening p r h]
    · rw [h6, request_listening p r h]; simp
    · rw [h7, request_listening p r h]; simp
    · rw [h8, request_listening p r h]; simp

/-! ## Frame lemmas -/

/-- A request leaves the two variables, the binds, the server state and the
uncaught error as they were, whatever state the server is in. -/
theorem request_frame (p : Process) (req : IncomingMessage) :
    (request p req).hostname = p.hostname ∧ (request p req).port = p.port ∧
    (request p req).binds = p.binds ∧ (request p req).state = p.state ∧
    (request p req).uncaught = p.uncaught := by
  by_cases h : p.state = ServerState.Listening
  · rw [request_listening p req h]; exact ⟨rfl, rfl, rfl, rfl, rfl⟩
  · rw [request_not_listening p req h]; exact ⟨rfl, rfl, rfl, rfl, rfl⟩

theorem serve_frame (reqs : List IncomingMessage) (p : Process) :
    (serve p reqs).hostname = p.hostname ∧ (serve p reqs).port = p.port ∧
    (serve p reqs).binds = p.binds ∧ (serve p reqs).state = p.state ∧
    (serve p reqs).uncaught = p.uncaught := by
  induction reqs generalizing p with
  | nil => exact ⟨rfl, rfl, rfl, rfl, rfl⟩
  | cons r rs ih =>
    obtain ⟨a1, a2, a3, a4, a5⟩ := ih (request p r)
    obtain ⟨b1, b2, b3, b4, b5⟩ := request_frame p r
    rw [serve_cons]
    exact ⟨a1.trans b1, a2.trans b2, a3.trans b3, a4.trans b4, a5.trans b5⟩

theorem start_frame (outcome : Except String Unit) (p : Process) :
    (start outcome p).hostname = p.hostname ∧ (start outcome p).port = p.port ∧
    (start outcome p).binds = p.binds ++ [(p.port, p.hostname)] := by
  cases outcome with
  | ok u => rw [start_ok]; exact ⟨rfl, rfl, rfl⟩
  | error c => rw [start_error]; exact ⟨rfl, rfl, rfl⟩

theorem startupLine_config :
    startupLine hostname port = "Server running at http://localhost:3000" := by
  decide

/-- The run after a successful bind, field by field. -/
theorem run_ok (u : Unit) (reqs : List IncomingMessage) :
    (run (.ok u) reqs).state = ServerState.Listening ∧
    (run (.ok u) reqs).uncaught = none ∧
    (run (.ok u) reqs).stdout =
      LogEntry.text (startupLine hostname port) :: reqs.map (fun r => LogEntry.object r.headers) ∧
    (run (.ok u) reqs).responses = reqs.map responseFor ∧
    (run (.ok u) reqs).trace =
      Effect.consoleLog (LogEntry.text (startupLine hostname port)) ::
        (reqs.map handlerCalls).flatten := by
  have h : (start (.ok u) Process.init).state = ServerState.Listening := by rw [start_ok]
  obtain ⟨_, _, h3, _, h5, h6, h7, h8⟩ := serve_listening reqs (start (.ok u) Process.init) h
  unfold run
  refine ⟨h3, ?_, ?_, ?_, ?_⟩
  · rw [h5, start_ok]; rfl
  · rw [h6, start_ok]; rfl
  · rw [h7, start_ok]; rfl
  · rw [h8, start_ok]; rfl

/-- The run after a failed bind: nothing happens after the failure. -/
theorem run_error (cause : String) (reqs : List IncomingMessage) :
    run (.error cause) reqs =
      { Process.init with
        state := ServerState.Terminated,
        binds := [(port, hostname)],
        uncaught := some (JsError.listenError cause) } := by
  unfold run
  rw [serve_not_listening]
  · rw [start_error]; rfl
  · rw [start_error]; simp

/-- The model has a failure path: the listener run on a response that was
already ended throws at `writeHead`. -/
theorem handler_on_ended_res (req : IncomingMessage) (p : Process) (hb : Bool) :
    ((handler req).exec { p with res := endedRes hb }).1 =
      .error JsError.ERR_HTTP_HEADERS_SENT := by
  simp [handler, Js.exec, console_log, writeHead, endedRes, bind, ExceptT.bind, ExceptT.mk,
    ExceptT.run, ExceptT.bindCont, StateT.bind, StateT.run, modify, modifyGet,
    MonadStateOf.modifyGet, StateT.modifyGet, get, getThe, MonadStateOf.get, StateT.get, pure,
    ExceptT.pure, StateT.pure, liftM, monadLift, MonadLift.monadLift, ExceptT.lift, StateT.map,
    Functor.map, throw, throwThe, MonadExceptOf.throw]

/-- Whether a runtime call is `res.end`. -/
def Effect.isEnd : Effect → Bool
  | Effect.end_ _ => true
  | _ => false

/-- Whether a runtime call is `console.log`. -/
def Effect.isLog : Effect → Bool
  | Effect.consoleLog _ => true
  | _ => false

/-- Whether a header mapping holds a header of this name with this value; names
are compared without regard to case, as HTTP header names are. -/
def hasHeader (fields : Headers) (name value : String) : Bool :=
  fields.any fun kv =>
    kv.1.toList.map Char.toLower == name.toList.map Char.toLower && kv.2 == value

/-- The request `GET /` with no header but `Host`, as the listener receives it. -/
def getRoot : IncomingMessage :=
  { method := "GET", url := "/", headers := [("host", "localhost:3000")] }

/-- The request `HEAD /` with no header but `Host`, as the listener receives it. -/
def headRoot : IncomingMessage :=
  { method := "HEAD", url := "/", headers := [("host", "localhost:3000")] }

/-- A request `GET /` sent with the header `X-Test: 1`, as the listener receives
it: the runtime has put the header names in lower case. -/
def getXTest : IncomingMessage :=
  { method := "GET", url := "/",
    headers := [("host", "localhost:3000"), ("x-test", "1"), ("connection", "keep-alive")] }

/-! ## The claims -/

/-- C1, as stated, fails for `HEAD /`: the listener hands the page to `res.end`,
but a response to a `HEAD` request carries no body, so the response sent has an
empty body and not the literal page. -/
theorem C1_head_counterexample :
    respond headRoot Process.init =
      some { status := 200, headers := [("Content-Type", "text/html")], body := "" } ∧
    respond headRoot Process.init ≠
      some { status := 200, headers := [("Content-Type", "text/html")], body := "<!doctype html><html><head><meta charset=\"utf-8\" /><meta name=\"viewport\" content=\"width=device-width, initial-scale=1.0\" /><title>Hello World</title></head><body><h1>Hello, world!</h1></body></html>" } ∧
    (run (.ok ()) [headRoot]).responses =
      [{ status := 200, headers := [("Content-Type", "text/html")], body := "" }] := by
  refine ⟨?_, ?_, ?_⟩
  · rw [respond_eq]; rfl
  · rw [respond_eq]; decide
  · rw [(run_ok () [headRoot]).2.2.2.1]; rfl

/-- C1, amended: for every request whose method is not `HEAD` (any other method,
any path, any header mapping) and every process state, the listener's response
has status 200, the explicitly set headers are exactly `Content-Type: text/html`,
and the body is exactly the literal page, and on the running server the one
response sent for the request is this response; for a `HEAD` request the status
and the header are the same and the body is empty. -/
theorem C1_fixed_response (req : IncomingMessage) (p : Process) :
    (req.method ≠ "HEAD" →
      respond req p =
        some { status := 200, headers := [("Content-Type", "text/html")], body := "<!doctype html><html><head><meta charset=\"utf-8\" /><meta name=\"viewport\" content=\"width=device-width, initial-scale=1.0\" /><title>Hello World</title></head><body><h1>Hello, world!</h1></body></html>" } ∧
      (run (.ok ()) [req]).responses =
        [{ status := 200, headers := [("Content-Type", "text/html")], body := "<!doctype html><html><head><meta charset=\"utf-8\" /><meta name=\"viewport\" content=\"width=device-width, initial-scale=1.0\" /><title>Hello World</title></head><body><h1>Hello, world!</h1></body></html>" }]) ∧
    (req.method = "HEAD" →
      respond req p =
        some { status := 200, headers := [("Content-Type", "text/html")], body := "" } ∧
      (run (.ok ()) [req]).responses =
        [{ status := 200, headers := [("Content-Type", "text/html")], body := "" }]) ∧
    (∃ r : Response, respond req p = some r ∧ r.status = 200 ∧
      r.headers = [("Content-Type", "text/html")] ∧ (r.body = "<!doctype html><html><head><meta charset=\"utf-8\" /><meta name=\"viewport\" content=\"width=device-width, initial-scale=1.0\" /><title>Hello World</title></head><body><h1>Hello, world!</h1></body></html>" ∨ r.body = "")) := by
  refine ⟨fun h => ⟨?_, ?_⟩, fun h => ⟨?_, ?_⟩, ?_⟩
  · rw [respond_eq, responseFor_not_head req h]; rfl
  · rw [(run_ok () [req]).2.2.2.1]
    simp only [List.map_cons, List.map_nil]
    rw [responseFor_not_head req h]; rfl
  · rw [respond_eq, responseFor_head req h]
  · rw [(run_ok () [req]).2.2.2.1]
    simp only [List.map_cons, List.map_nil]
    rw [responseFor_head req h]
  · refine ⟨responseFor req, respond_eq req p, rfl, rfl, ?_⟩
    by_cases h : req.method = "HEAD"
    · right; rw [responseFor_head req h]
    · left; rw [responseFor_not_head req h]; rfl

/-- The witness of C1: `GET /` with no special headers gets the literal page. -/
theorem C1_fixed_response_witness :
    getRoot.method ≠ "HEAD" ∧
    respond getRoot Process.init =
      some { status := 200, headers := [("Content-Type", "text/html")], body := "<!doctype html><html><head><meta charset=\"utf-8\" /><meta name=\"viewport\" content=\"width=device-width, initial-scale=1.0\" /><title>Hello World</title></head><body><h1>Hello, world!</h1></body></html>" } ∧
    (run (.ok ()) [getRoot]).responses =
      [{ status := 200, headers := [("Content-Type", "text/html")], body := "<!doctype html><html><head><meta charset=\"utf-8\" /><meta name=\"viewport\" content=\"width=device-width, initial-scale=1.0\" /><title>Hello World</title></head><body><h1>Hello, world!</h1></body></html>" }] :=
  ⟨by decide, (C1_fixed_response getRoot Process.init).1 (by decide)⟩

/-- C2, as stated, fails for `GET /` against `HEAD /`: the two responses differ
in their body. -/
theorem C2_head_counterexample :
    respond getRoot Process.init ≠ respond headRoot Process.init ∧
    (run (.ok ()) [getRoot]).responses ≠ (run (.ok ()) [headRoot]).responses := by
  refine ⟨?_, ?_⟩
  · rw [respond_eq, respond_eq]; decide
  · rw [(run_ok () [getRoot]).2.2.2.1, (run_ok () [headRoot]).2.2.2.1]; decide

/-- C2, amended: the response depends on the request only through whether its
method is `HEAD`: two requests that are both `HEAD` or both not `HEAD`, differing
arbitrarily otherwise, get equal responses, from the same process state and on
the running server; any two requests get the same status and headers; and the
path and the headers of a request never change its response. -/
theorem C2_response_independent_of_request (r1 r2 : IncomingMessage) (p : Process)
    (u : String) (hs : Headers) :
    ((r1.method = "HEAD" ↔ r2.method = "HEAD") →
      respond r1 p = respond r2 p ∧
      (run (.ok ()) [r1]).responses = (run (.ok ()) [r2]).responses) ∧
    (∃ x1 x2 : Response, respond r1 p = some x1 ∧ respond r2 p = some x2 ∧
      x1.status = x2.status ∧ x1.headers = x2.headers) ∧
    respond { r1 with url := u, headers := hs } p = respond r1 p := by
  refine ⟨fun h => ⟨?_, ?_⟩, ?_, ?_⟩
  · rw [respond_eq, respond_eq, responseFor_congr r1 r2 h]
  · rw [(run_ok () [r1]).2.2.2.1, (run_ok () [r2]).2.2.2.1]
    simp only [List.map_cons, List.map_nil]
    rw [responseFor_congr r1 r2 h]
  · exact ⟨responseFor r1, responseFor r2, respond_eq r1 p, respond_eq r2 p, rfl, rfl⟩
  · rw [respond_eq, respond_eq]; rfl

/-- The witness of C2: `GET /` and `GET /` with `X-Test: 1`, neither of them
`HEAD`, get equal responses. -/
theorem C2_response_independent_of_request_witness :
    (getRoot.method = "HEAD" ↔ getXTest.method = "HEAD") ∧
    respond getRoot Process.init = respond getXTest Process.init ∧
    (run (.ok ()) [getRoot]).responses = (run (.ok ()) [getXTest]).responses :=
  ⟨by decide,
   (C2_response_independent_of_request getRoot getXTest Process.init "/" []).1 (by decide)⟩

/-- C3: handling a request, with or without headers, appends exactly one entry to
the log sink, the entry is the header mapping `req.headers`, and so every
key/value pair of the request's headers is in the entry; of the runtime calls the
listener makes for the request exactly one is a log call. -/
theorem C3_one_log_entry (req : IncomingMessage) (p : Process) :
    ((handler req).exec { p with res := ServerResponse.forRequest req }).2.stdout =
      p.stdout ++ [LogEntry.object req.headers] ∧
    (run (.ok ()) [req]).stdout =
      [LogEntry.text "Server running at http://localhost:3000", LogEntry.object req.headers] ∧
    (∀ kv : String × String, kv ∈ req.headers →
      ∃ fields, LogEntry.object fields ∈
        (((handler req).exec { p with res := ServerResponse.forRequest req }).2.stdout.drop
          p.stdout.length) ∧ kv ∈ fields) ∧
    ((((handler req).exec { p with res := ServerResponse.forRequest req }).2.trace.drop
        p.trace.length).filter Effect.isLog).length = 1 := by
  refine ⟨?_, ?_, ?_, ?_⟩
  · rw [handler_exec_req]
  · rw [(run_ok () [req]).2.2.1, startupLine_config]; rfl
  · intro kv hkv
    refine ⟨req.headers, ?_, hkv⟩
    rw [handler_exec_req]
    simp
  · rw [handler_exec_req]
    simp [Effect.isLog, handlerCalls]

/-- The witness of C3: for a request sent with `X-Test: 1` the one log entry is
the header mapping the listener received, which holds that header with the value
`1`, under the key `x-test`. -/
theorem C3_one_log_entry_witness :
    ("x-test", "1") ∈ getXTest.headers ∧
    (run (.ok ()) [getXTest]).stdout =
      [LogEntry.text "Server running at http://localhost:3000",
       LogEntry.object
         [("host", "localhost:3000"), ("x-test", "1"), ("connection", "keep-alive")]] ∧
    (∃ fields, LogEntry.object fields ∈
        (((handler getXTest).exec
          { Process.init with res := ServerResponse.forRequest getXTest }).2.stdout.drop
            Process.init.stdout.length) ∧ ("x-test", "1") ∈ fields) ∧
    hasHeader getXTest.headers "X-Test" "1" = true :=
  ⟨by decide, (C3_one_log_entry getXTest Process.init).2.1,
   (C3_one_log_entry getXTest Process.init).2.2.1 ("x-test", "1") (by decide), by decide⟩

/-- C4: handling a request `N` times in succession on a listening server yields
exactly `N` responses and they are all equal to each other (each is the response
to that request); the two variables and the server state are as before, the log
sink has grown by the `N` header mappings, and the response to any later request
is what it was before. -/
theorem C4_idempotent (r : IncomingMessage) (N : Nat) (p : Process)
    (hN : 1 ≤ N) (h : p.state = ServerState.Listening) :
    (∃ resp : Response, respond r p = some resp ∧
      (serve p (List.replicate N r)).responses = p.responses ++ List.replicate N resp) ∧
    (((serve p (List.replicate N r)).responses.drop p.responses.length).length = N ∧
      (serve p (List.replicate N r)).responses.drop p.responses.length ≠ []) ∧
    (∀ x y : Response,
      x ∈ (serve p (List.replicate N r)).responses.drop p.responses.length →
      y ∈ (serve p (List.replicate N r)).responses.drop p.responses.length → x = y) ∧
    (serve p (List.replicate N r)).hostname = p.hostname ∧
    (serve p (List.replicate N r)).port = p.port ∧
    (serve p (List.replicate N r)).state = p.state ∧
    (serve p (List.replicate N r)).stdout =
      p.stdout ++ List.replicate N (LogEntry.object r.headers) ∧
    (∀ r2 : IncomingMessage,
      respond r2 (serve p (List.replicate N r)) = respond r2 p) := by
  obtain ⟨h1, h2, h3, _, _, h6, h7, _⟩ := serve_listening (List.replicate N r) p h
  have h7r : (serve p (List.replicate N r)).responses =
      p.responses ++ List.replicate N (responseFor r) := by
    rw [h7]; simp
  have hd : (serve p (List.replicate N r)).responses.drop p.responses.length =
      List.replicate N (responseFor r) := by
    rw [h7r]; simp
  refine ⟨⟨responseFor r, respond_eq r p, h7r⟩, ⟨?_, ?_⟩, ?_, h1, h2, h3.trans h.symm, ?_, ?_⟩
  · rw [hd]; simp
  · rw [hd]
    intro hnil
    have hlen := congrArg List.length hnil
    simp at hlen
    omega
  · intro x y hx hy
    rw [hd] at hx hy
    rw [List.eq_of_mem_replicate hx, List.eq_of_mem_replicate hy]
  · rw [h6]; simp
  · intro r2; rw [respond_eq, respond_eq]

/-- The witness of C4: three times `HEAD /` on the started server. -/
theorem C4_idempotent_witness :
    (1 ≤ 3 ∧ (start (.ok ()) Process.init).state = ServerState.Listening) ∧
    ∃ resp : Response, respond headRoot (start (.ok ()) Process.init) = some resp ∧
      (serve (start (.ok ()) Process.init) (List.replicate 3 headRoot)).responses =
        (start (.ok ()) Process.init).responses ++ List.replicate 3 resp :=
  ⟨⟨by decide, by rw [start_ok]⟩,
   (C4_idempotent headRoot 3 (start (.ok ()) Process.init) (by decide) (by rw [start_ok])).1⟩

/-- C5: after a successful bind the log sink holds exactly one startup line,
`Server running at http://localhost:3000`, before any entry of a request; for any
values of the two variables the line is `Server running at http://` followed by
the hostname, a colon and the decimal port; after a failed bind the log sink is
empty whatever requests are sent. -/
theorem C5_startup_line (reqs : List IncomingMessage) (cause : String) (p : Process) :
    (run (.ok ()) []).stdout = [LogEntry.text "Server running at http://localhost:3000"] ∧
    (run (.ok ()) reqs).stdout =
      LogEntry.text "Server running at http://localhost:3000" ::
        reqs.map (fun r => LogEntry.object r.headers) ∧
    (start (.ok ()) p).stdout =
      p.stdout ++
        [LogEntry.text ("Server running at http://" ++ p.hostname ++ ":" ++ toString p.port)] ∧
    (run (.error cause) reqs).stdout = [] := by
  refine ⟨?_, ?_, ?_, ?_⟩
  · rw [(run_ok () []).2.2.1, startupLine_config]; rfl
  · rw [(run_ok () reqs).2.2.1, startupLine_config]
  · rw [start_ok]; rfl
  · rw [run_error]; rfl

/-- C6: when the bind fails with a cause, the run ends with the uncaught listen
error carrying that cause, the server is terminated (never listening, whatever
requests are sent), no startup line is logged, no response is sent, and exactly
one bind was attempted. -/
theorem C6_bind_failure (cause : String) (reqs : List IncomingMessage) :
    (run (.error cause) reqs).uncaught = some (JsError.listenError cause) ∧
    (run (.error cause) reqs).state = ServerState.Terminated ∧
    (run (.error cause) reqs).stdout = [] ∧
    (run (.error cause) reqs).responses = [] ∧
    (run (.error cause) reqs).binds = [(3000, "localhost")] := by
  rw [run_error]
  exact ⟨rfl, rfl, rfl, rfl, rfl⟩

/-- C7: `server.listen` is called once, with port 3000 and hostname `localhost`;
the port lies in 1..65535; and no operation changes the two variables: not
starting, not a request, not a sequence of requests, so after any run they are
`localhost` and 3000. -/
theorem C7_listen_address (outcome : Except String Unit) (reqs : List IncomingMessage)
    (p : Process) (req : IncomingMessage) :
    (run outcome reqs).binds = [(3000, "localhost")] ∧
    (1 ≤ port ∧ port ≤ 65535) ∧
    ((run outcome reqs).hostname = "localhost" ∧ (run outcome reqs).port = 3000) ∧
    ((start outcome p).hostname = p.hostname ∧ (start outcome p).port = p.port) ∧
    ((request p req).hostname = p.hostname ∧ (request p req).port = p.port) ∧
    ((serve p reqs).hostname = p.hostname ∧ (serve p reqs).port = p.port) := by
  obtain ⟨a1, a2, a3, _, _⟩ := serve_frame reqs (start outcome Process.init)
  obtain ⟨b1, b2, b3⟩ := start_frame outcome Process.init
  obtain ⟨c1, c2, _⟩ := start_frame outcome p
  obtain ⟨d1, d2, _, _, _⟩ := request_frame p req
  obtain ⟨e1, e2, _, _, _⟩ := serve_frame reqs p
  refine ⟨?_, ⟨by decide, by decide⟩, ⟨?_, ?_⟩, ⟨c1, c2⟩, ⟨d1, d2⟩, ⟨e1, e2⟩⟩
  · unfold run; rw [a3, b3]; rfl
  · unfold run; rw [a1, b1]; rfl
  · unfold run; rw [a2, b2]; rfl

/-- C8: the listener has no failure path: for every request and process state,
run on a new response object, and on the response object created for the request,
it returns normally and a response is produced; a request never terminates the
server nor leaves an uncaught error. This holds for the empty header mapping in
particular. -/
theorem C8_handler_total (req : IncomingMessage) (p : Process) :
    ((handler req).exec { p with res := ServerResponse.fresh }).1 = .ok () ∧
    (respond req p).isSome = true ∧
    (request p req).uncaught = p.uncaught ∧
    (request p req).state = p.state ∧
    ((handler { req with headers := [] }).exec { p with res := ServerResponse.fresh }).1 =
      .ok () ∧
    ((handler req).exec { p with res := ServerResponse.forRequest req }).1 = .ok () ∧
    ((handler { req with headers := [] }).exec
      { p with res := ServerResponse.forRequest { req with headers := [] } }).1 = .ok () := by
  obtain ⟨_, _, _, h4, h5⟩ := request_frame p req
  refine ⟨?_, ?_, h5, h4, ?_, ?_, ?_⟩
  · rw [handler_exec_fresh]
  · rw [respond_eq]; rfl
  · rw [handler_exec_fresh]
  · rw [handler_exec_req]
  · rw [handler_exec_req]

/-- C9: for every request the listener makes exactly three runtime calls, in this
order: the log of the request headers, `writeHead(200, Content-Type: text/html)`,
`end` with the whole page; exactly one of them is `end`, and afterwards the head
is sent and the response is ended. This holds on a new response object and on
the response object created for the request, whatever its method. -/
theorem C9_effect_order (req : IncomingMessage) (p : Process) :
    ((handler req).exec { p with res := ServerResponse.fresh }).2.trace =
      p.trace ++
        [Effect.consoleLog (LogEntry.object req.headers),
         Effect.writeHead 200 [("Content-Type", "text/html")],
         Effect.end_ "<!doctype html><html><head><meta charset=\"utf-8\" /><meta name=\"viewport\" content=\"width=device-width, initial-scale=1.0\" /><title>Hello World</title></head><body><h1>Hello, world!</h1></body></html>"] ∧
    ((((handler req).exec { p with res := ServerResponse.fresh }).2.trace.drop
        p.trace.length).filter Effect.isEnd).length = 1 ∧
    ((handler req).exec { p with res := ServerResponse.fresh }).2.res.headersSent = true ∧
    ((handler req).exec { p with res := ServerResponse.fresh }).2.res.finished = true ∧
    ((handler req).exec { p with res := ServerResponse.forRequest req }).2.trace =
      p.trace ++
        [Effect.consoleLog (LogEntry.object req.headers),
         Effect.writeHead 200 [("Content-Type", "text/html")],
         Effect.end_ "<!doctype html><html><head><meta charset=\"utf-8\" /><meta name=\"viewport\" content=\"width=device-width, initial-scale=1.0\" /><title>Hello World</title></head><body><h1>Hello, world!</h1></body></html>"] ∧
    ((((handler req).exec { p with res := ServerResponse.forRequest req }).2.trace.drop
        p.trace.length).filter Effect.isEnd).length = 1 ∧
    ((handler req).exec { p with res := ServerResponse.forRequest req }).2.res.headersSent =
      true ∧
    ((handler req).exec { p with res := ServerResponse.forRequest req }).2.res.finished =
      true := by
  rw [handler_exec_fresh, handler_exec_req]
  refine ⟨rfl, ?_, rfl, rfl, rfl, ?_, rfl, rfl⟩
  · simp [Effect.isEnd, handlerCalls]
  · simp [Effect.isEnd, handlerCalls]

/-- C10: logging is observational only: for any two contents of the log sink and
any request, the listener's response is the same, and so are the responses the
server has sent after the request. -/
theorem C10_log_sink_irrelevant (r : IncomingMessage) (s1 s2 : List LogEntry) (p : Process) :
    respond r { p with stdout := s1 } = respond r { p with stdout := s2 } ∧
    (request { p with stdout := s1 } r).responses =
      (request { p with stdout := s2 } r).responses := by
  refine ⟨?_, ?_⟩
  · rw [respond_eq, respond_eq]
  · by_cases h : p.state = ServerState.Listening
    · rw [request_listening _ r (show ({ p with stdout := s1 } : Process).state = _ from h),
        request_listening _ r (show ({ p with stdout := s2 } : Process).state = _ from h)]
    · rw [request_not_listening _ r (show ({ p with stdout := s1 } : Process).state ≠ _ from h),
        request_not_listening _ r (show ({ p with stdout := s2 } : Process).state ≠ _ from h)]

end HelloWorld
